import Mathlib

/-
Shallow embedding of the libbitcoin per-connection protocol engine
(channel_pimpl, from src/network/channel.cpp and src/network/channel.hpp).

Each asynchronous completion handler of the C++ class is embedded as a pure
function that returns the ordered list of observable actions the handler
performs: reads issued on the socket, payload-buffer resizes, timer rearms,
teardown requests sent to the owning gateway (network_->disconnect), messages
delivered to the kernel (recv_message), log lines, and outbound sends.
The dialect (translator_) and the kernel are external collaborators whose
headers are not part of this repository's core sources, so they are embedded
as records of abstract functions; the channel only branches on the booleans
they return, which is exactly what the records expose.
-/

namespace Libbitcoin

/-- Completion status of an asynchronous boost operation, as the channel
observes it: no error, operation_aborted (cancellation), or any other
error code (collapsing the concrete boost code, which the channel never
inspects beyond the two tests in problems_check). -/
inductive ErrorCode where
  | success : ErrorCode
  | operationAborted : ErrorCode
  | otherError : Nat → ErrorCode
deriving DecidableEq

/-- The kind of socket read the channel issues: the fixed 20-byte header
chunk, the fixed 4-byte checksum chunk, or a payload of the given length. -/
inductive ReadKind where
  | header : ReadKind
  | checksum : ReadKind
  | payload : Nat → ReadKind
deriving DecidableEq

/-- One observable action performed by a channel handler, in program order. -/
inductive Action where
  | idAssigned : Nat → Action
  | readIssued : ReadKind → Action
  | payloadBufferResized : Nat → Action
  | timerRearmed : Action
  | teardownRequested : Action
  | kernelDelivered : String → Action
  | logLine : Action
  | versionSent : Action
deriving DecidableEq

namespace message

/-- message::header as the channel uses it: 12-byte command name, 4-byte
little-endian payload length, optional checksum (messages.hpp is outside the
core sources; these are the three fields channel.cpp reads and writes). -/
structure header where
  command : String
  payload_length : Nat
  checksum : Nat
deriving DecidableEq

/-- message::net_addr: services bitmask, 16 IP octets, port. -/
structure net_addr where
  services : Nat
  ip_addr : List Nat
  port : Nat
deriving DecidableEq

/-- message::version, the handshake message composed at construction. -/
structure version where
  version : Nat
  services : Nat
  timestamp : Int
  addr_me : net_addr
  addr_you : net_addr
  nonce : Nat
  sub_version_num : String
  start_height : Int
deriving DecidableEq

end message

/-- The dialect (translator_) collaborator. Its header is outside the core
sources, so it is embedded as abstract functions. The four body decoders
(x_from_network(header, stream, bool and ret_errc)) return a message body the
channel passes opaquely to the kernel plus the ret_errc flag; only the flag
steers the channel's control flow, so the embedding keeps the flag. -/
structure dialect where
  header_from_network : List Nat → message.header
  verify_header : message.header → Bool
  checksum_used : message.header → Bool
  checksum_from_network : List Nat → Nat
  verify_checksum : message.header → List Nat → Bool
  version_from_network : message.header → List Nat → Bool
  addr_from_network : message.header → List Nat → Bool
  inv_from_network : message.header → List Nat → Bool
  block_from_network : message.header → List Nat → Bool

/-- The kernel collaborator: recv_message(channel_id, payload) returns
accept/reject. The payload body is opaque to the channel, so it is keyed
here by the cycle's command tag. -/
structure kernel where
  recv_message : Nat → String → Bool

/-- The gateway (class network) facts the channel reads at construction:
network_->get_ip_address(), the 16 octets of the local address. -/
structure network where
  get_ip_address : List Nat

namespace channel_pimpl

/-- channel_pimpl::problems_check: operation_aborted is swallowed (stop, no
action); any other error calls destroy_self (stop, one teardown request);
no error continues the handler. Returns (handler must return, actions). -/
def problems_check (ec : ErrorCode) : Bool × List Action :=
  match ec with
  | ErrorCode.operationAborted => (true, [])
  | ErrorCode.otherError _ => (true, [Action.teardownRequested])
  | ErrorCode.success => (false, [])

/-- channel_pimpl::handle_timeout: if problems_check stops the handler its
actions stand alone; otherwise the expiry is real and destroy_self fires. -/
def handle_timeout (ec : ErrorCode) : List Action :=
  let pc := problems_check ec
  if pc.1 then pc.2
  else pc.2 ++ [Action.logLine, Action.teardownRequested]

/-- channel_pimpl::reset_timeout: cancel any pending wait and schedule a new
expiry at now + disconnect_timeout, embedded as one rearm action. -/
def reset_timeout : List Action := [Action.timerRearmed]

/-- channel_pimpl::read_header: async_read of the 20-byte header chunk. -/
def read_header : List Action := [Action.readIssued ReadKind.header]

/-- channel_pimpl::read_checksum: async_read of the 4-byte checksum chunk. -/
def read_checksum : List Action := [Action.readIssued ReadKind.checksum]

/-- channel_pimpl::read_payload: inbound_payload_.resize(payload_length) and
then async_read of exactly payload_length bytes, in that order. -/
def read_payload (header_msg : message.header) : List Action :=
  [Action.payloadBufferResized header_msg.payload_length,
   Action.readIssued (ReadKind.payload header_msg.payload_length)]

/-- channel_pimpl::handle_read_header: after problems_check, parse the header
via the dialect; an invalid header logs and calls destroy_self with no
further read; a valid header logs, then issues read_checksum or read_payload
depending on checksum_used, and only then calls reset_timeout. -/
def handle_read_header (translator : dialect) (ec : ErrorCode)
    (inbound_header : List Nat) : List Action :=
  let pc := problems_check ec
  if pc.1 then pc.2
  else
    let header_msg := translator.header_from_network inbound_header
    if translator.verify_header header_msg = false then
      pc.2 ++ [Action.logLine, Action.teardownRequested]
    else
      pc.2 ++ [Action.logLine] ++
        (if translator.checksum_used header_msg then read_checksum
         else read_payload header_msg) ++
        reset_timeout

/-- channel_pimpl::handle_read_checksum: after problems_check, attach the
parsed checksum to the header, issue read_payload, then reset_timeout. -/
def handle_read_checksum (translator : dialect) (header_msg : message.header)
    (ec : ErrorCode) (inbound_checksum : List Nat) : List Action :=
  let pc := problems_check ec
  if pc.1 then pc.2
  else
    let header2 :=
      { header_msg with
        checksum := translator.checksum_from_network inbound_checksum }
    pc.2 ++ read_payload header2 ++ reset_timeout

/-- channel_pimpl::transport_payload (channel.hpp): if ret_errc is set, or the
kernel's recv_message rejects, destroy_self and report false; the kernel is
only called when ret_errc is clear (short-circuit of the C++ or). -/
def transport_payload (network_kernel : kernel) (channel_id : Nat)
    (cmd : String) (ret_errc : Bool) : Bool × List Action :=
  if ret_errc then (false, [Action.teardownRequested])
  else if network_kernel.recv_message channel_id cmd then
    (true, [Action.kernelDelivered cmd])
  else (false, [Action.kernelDelivered cmd, Action.teardownRequested])

/-- The command-string if/else chain of handle_read_payload: each recognized
command decodes its body (collecting ret_errc; verack has no decoder and
keeps ret_errc false) and runs transport_payload; an unrecognized command
matches no branch and falls through with nothing done. Returns (fall through
to read_header, actions). -/
def dispatch (translator : dialect) (network_kernel : kernel)
    (channel_id : Nat) (header_msg : message.header)
    (payload_stream : List Nat) : Bool × List Action :=
  if header_msg.command = "version" then
    transport_payload network_kernel channel_id header_msg.command
      (translator.version_from_network header_msg payload_stream)
  else if header_msg.command = "verack" then
    transport_payload network_kernel channel_id header_msg.command false
  else if header_msg.command = "addr" then
    transport_payload network_kernel channel_id header_msg.command
      (translator.addr_from_network header_msg payload_stream)
  else if header_msg.command = "inv" then
    transport_payload network_kernel channel_id header_msg.command
      (translator.inv_from_network header_msg payload_stream)
  else if header_msg.command = "block" then
    transport_payload network_kernel channel_id header_msg.command
      (translator.block_from_network header_msg payload_stream)
  else (true, [])

/-- channel_pimpl::handle_read_payload: after problems_check, a failed
verify_checksum logs and calls destroy_self; otherwise the command chain
runs, and only if no branch returned early does the handler issue
read_header and then reset_timeout. -/
def handle_read_payload (translator : dialect) (network_kernel : kernel)
    (channel_id : Nat) (header_msg : message.header) (ec : ErrorCode)
    (payload_stream : List Nat) : List Action :=
  let pc := problems_check ec
  if pc.1 then pc.2
  else if translator.verify_checksum header_msg payload_stream = false then
    pc.2 ++ [Action.logLine, Action.teardownRequested]
  else
    let dr := dispatch translator network_kernel channel_id header_msg
      payload_stream
    if dr.1 then pc.2 ++ dr.2 ++ read_header ++ reset_timeout
    else pc.2 ++ dr.2

/-- Initial value of the shared static channel_pimpl::chan_id_counter. -/
def chan_id_counter : Nat := 0

/-- channel_pimpl::channel_pimpl given the current shared counter value:
channel_id_ = counter; counter incremented; then read_header(),
reset_timeout(), and send(create_version_message()), in source order.
Returns (assigned channel_id_, new counter, constructor actions). -/
def construct (counter : Nat) : Nat × Nat × List Action :=
  (counter, counter + 1,
   [Action.idAssigned counter] ++ read_header ++ reset_timeout ++
     [Action.versionSent])

/-- Value of the shared counter after n channel constructions. -/
def counter_after : Nat → Nat
  | 0 => chan_id_counter
  | Nat.succ n => (construct (counter_after n)).2.1

/-- The channel_id_ assigned to the n-th channel constructed in the
process (counting from 0). -/
def channel_id_of (n : Nat) : Nat := (construct (counter_after n)).1

/-- channel_pimpl::create_version_message, given the gateway (network_) and
the current time: every field except timestamp and addr_me.ip_addr is a
hardcoded constant (the source comments them as test data). -/
def create_version_message (network_gw : network) (now : Int) :
    message.version :=
  { version := 31900
  , services := 1
  , timestamp := now
  , addr_me :=
      { services := 1, ip_addr := network_gw.get_ip_address, port := 8333 }
  , addr_you :=
      { services := 1
      , ip_addr := [0, 0, 0, 0, 0, 0, 0, 0, 0, 0, 0xff, 0xff, 10, 0, 0, 1]
      , port := 8333 }
  , nonce := 0xdeadbeef
  , sub_version_num := ""
  , start_height := 0 }

end channel_pimpl

/-- Is this action a socket read issuance? -/
def isRead : Action → Bool
  | Action.readIssued _ => true
  | _ => false

/-- Is this action a delivery to the kernel? -/
def isDelivered : Action → Bool
  | Action.kernelDelivered _ => true
  | _ => false

/-- Is this action a channel-identity assignment? -/
def isIdAssigned : Action → Bool
  | Action.idAssigned _ => true
  | _ => false

/-- Number of socket reads issued in a trace. -/
def readCount (tr : List Action) : Nat := (tr.filter isRead).length

/-- Number of kernel deliveries in a trace. -/
def deliveredCount (tr : List Action) : Nat := (tr.filter isDelivered).length

/-- Number of teardown requests in a trace. -/
def teardownCount (tr : List Action) : Nat := tr.count Action.teardownRequested

/-- Auxiliary scan: true iff every read issued in the remaining trace is
preceded (in the whole trace) by a timer rearm; the flag records whether a
rearm has been seen. -/
def rearmBeforeReadAux : List Action → Bool → Bool
  | [], _ => true
  | Action.timerRearmed :: rest, _ => rearmBeforeReadAux rest true
  | Action.readIssued _ :: rest, seen => seen && rearmBeforeReadAux rest seen
  | _ :: rest, seen => rearmBeforeReadAux rest seen

/-- True iff every read issued in the trace happens after a timer rearm:
the ordering the specification asserts for a stage-completion handler. -/
def rearmBeforeRead (tr : List Action) : Bool := rearmBeforeReadAux tr false

/-- True iff the trace's final action is the timer rearm and at least one
read was issued earlier in the trace: the ordering the code actually
implements in its stage-completion handlers. -/
def syncRearmAfterRead (tr : List Action) : Bool :=
  (tr.getLast? == some Action.timerRearmed) &&
    !((readCount tr.dropLast) == 0)

/-- True iff the command tag matches one of the five commands the payload
handler's if/else chain recognizes for dispatch. -/
def recognized (cmd : String) : Bool :=
  (cmd == "version") || (cmd == "verack") || (cmd == "addr") ||
    (cmd == "inv") || (cmd == "block")

/-- A concrete dialect used to evaluate the handlers on closed inputs: every
header parses to a zero-length verack, all checks pass, no decoder fails. -/
def exDialect : dialect :=
  { header_from_network :=
      fun _ => { command := "verack", payload_length := 0, checksum := 0 }
  , verify_header := fun _ => true
  , checksum_used := fun _ => false
  , checksum_from_network := fun _ => 0
  , verify_checksum := fun _ _ => true
  , version_from_network := fun _ _ => false
  , addr_from_network := fun _ _ => false
  , inv_from_network := fun _ _ => false
  , block_from_network := fun _ _ => false }

/-- exDialect with header validation failing. -/
def exDialectBadHeader : dialect :=
  { exDialect with verify_header := fun _ => false }

/-- exDialect with checksum verification failing. -/
def exDialectBadChecksum : dialect :=
  { exDialect with verify_checksum := fun _ _ => false }

/-- exDialect whose version decoder reports the ret_errc failure flag. -/
def exDialectDecodeFail : dialect :=
  { exDialect with version_from_network := fun _ _ => true }

/-- A kernel that accepts every delivered message. -/
def exKernelAccept : kernel := { recv_message := fun _ _ => true }

/-- A kernel that rejects every delivered message. -/
def exKernelReject : kernel := { recv_message := fun _ _ => false }

/-- A concrete header carrying the version command. -/
def exHeaderVersion : message.header :=
  { command := "version", payload_length := 0, checksum := 0 }

/-- A concrete header carrying an unrecognized command with 50 payload
bytes. -/
def exHeaderUnknown : message.header :=
  { command := "ping", payload_length := 50, checksum := 0 }

/-- A concrete header carrying the getaddr command. -/
def exHeaderGetaddr : message.header :=
  { command := "getaddr", payload_length := 0, checksum := 0 }

/-- C1: a timer firing whose error code is not operation_aborted (a genuine
expiry, or any other error) performs exactly one teardown request; a firing
that reflects cancellation performs no action at all. -/
theorem handle_timeout_cancellation_benign (ec : ErrorCode) :
    (ec ≠ ErrorCode.operationAborted →
      teardownCount (channel_pimpl.handle_timeout ec) = 1) ∧
    (ec = ErrorCode.operationAborted →
      channel_pimpl.handle_timeout ec = []) := by
  refine ⟨?_, ?_⟩
  · intro h
    cases ec with
    | success => rfl
    | operationAborted => exact absurd rfl h
    | otherError n => rfl
  · intro h
    subst h
    rfl

/-- Witness for C1: a genuine error firing yields one teardown and a
cancelled firing yields the empty trace. -/
theorem handle_timeout_cancellation_benign_witness :
    teardownCount (channel_pimpl.handle_timeout (ErrorCode.otherError 5)) = 1 ∧
    channel_pimpl.handle_timeout ErrorCode.operationAborted = [] :=
  ⟨(handle_timeout_cancellation_benign (ErrorCode.otherError 5)).1 (by decide),
   (handle_timeout_cancellation_benign ErrorCode.operationAborted).2 rfl⟩

/-- C3: a completed header read whose parsed header fails the dialect's
validity check logs and issues exactly one teardown request, and schedules
no further read on the channel. -/
theorem invalid_header_single_teardown (translator : dialect) (hb : List Nat)
    (hinv : translator.verify_header (translator.header_from_network hb)
      = false) :
    channel_pimpl.handle_read_header translator ErrorCode.success hb =
      [Action.logLine, Action.teardownRequested] ∧
    teardownCount
      (channel_pimpl.handle_read_header translator ErrorCode.success hb) = 1 ∧
    readCount
      (channel_pimpl.handle_read_header translator ErrorCode.success hb)
      = 0 := by
  have h1 : channel_pimpl.handle_read_header translator ErrorCode.success hb =
      [Action.logLine, Action.teardownRequested] := by
    simp [channel_pimpl.handle_read_header, channel_pimpl.problems_check, hinv]
  refine ⟨h1, ?_, ?_⟩ <;> rw [h1] <;> rfl

/-- Witness for C3: the concrete bad-header dialect at an empty byte list. -/
theorem invalid_header_single_teardown_witness :
    channel_pimpl.handle_read_header exDialectBadHeader ErrorCode.success [] =
      [Action.logLine, Action.teardownRequested] ∧
    teardownCount
      (channel_pimpl.handle_read_header exDialectBadHeader
        ErrorCode.success []) = 1 ∧
    readCount
      (channel_pimpl.handle_read_header exDialectBadHeader
        ErrorCode.success []) = 0 :=
  invalid_header_single_teardown exDialectBadHeader [] rfl

/-- C4: a completed payload read whose checksum verification fails logs and
issues exactly one teardown request, and no decoded body from the cycle is
delivered to the kernel. -/
theorem bad_checksum_single_teardown (translator : dialect)
    (network_kernel : kernel) (channel_id : Nat)
    (header_msg : message.header) (pb : List Nat)
    (hfail : translator.verify_checksum header_msg pb = false) :
    channel_pimpl.handle_read_payload translator network_kernel channel_id
      header_msg ErrorCode.success pb =
      [Action.logLine, Action.teardownRequested] ∧
    teardownCount
      (channel_pimpl.handle_read_payload translator network_kernel channel_id
        header_msg ErrorCode.success pb) = 1 ∧
    deliveredCount
      (channel_pimpl.handle_read_payload translator network_kernel channel_id
        header_msg ErrorCode.success pb) = 0 := by
  have h1 : channel_pimpl.handle_read_payload translator network_kernel
      channel_id header_msg ErrorCode.success pb =
      [Action.logLine, Action.teardownRequested] := by
    simp [channel_pimpl.handle_read_payload, channel_pimpl.problems_check,
      hfail]
  refine ⟨h1, ?_, ?_⟩ <;> rw [h1] <;> rfl

/-- Witness for C4: the concrete bad-checksum dialect on a version header. -/
theorem bad_checksum_single_teardown_witness :
    channel_pimpl.handle_read_payload exDialectBadChecksum exKernelAccept 0
      exHeaderVersion ErrorCode.success [] =
      [Action.logLine, Action.teardownRequested] ∧
    teardownCount
      (channel_pimpl.handle_read_payload exDialectBadChecksum exKernelAccept 0
        exHeaderVersion ErrorCode.success []) = 1 ∧
    deliveredCount
      (channel_pimpl.handle_read_payload exDialectBadChecksum exKernelAccept 0
        exHeaderVersion ErrorCode.success []) = 0 :=
  bad_checksum_single_teardown exDialectBadChecksum exKernelAccept 0
    exHeaderVersion [] rfl

/-- C7: for every header (any payload length, zero included), read_payload
first resizes the inbound payload buffer to exactly the header's declared
payload length and then issues a read of exactly that many bytes. -/
theorem payload_buffer_exact_size (header_msg : message.header) :
    channel_pimpl.read_payload header_msg =
      [Action.payloadBufferResized header_msg.payload_length,
       Action.readIssued (ReadKind.payload header_msg.payload_length)] := rfl

/-- C9 (code bug): every node-identity field of the composed handshake
message except the local IP octets and the timestamp is a hardcoded
constant, identical across all gateway configurations: the nonce is always
0xdeadbeef, the protocol version always 31900, the peer address octets and
both ports fixed. -/
theorem create_version_message_hardcoded (gw gw2 : network) (t t2 : Int) :
    (channel_pimpl.create_version_message gw t).nonce = 0xdeadbeef ∧
    (channel_pimpl.create_version_message gw t).version = 31900 ∧
    (channel_pimpl.create_version_message gw t).nonce =
      (channel_pimpl.create_version_message gw2 t2).nonce ∧
    (channel_pimpl.create_version_message gw t).addr_you =
      (channel_pimpl.create_version_message gw2 t2).addr_you ∧
    (channel_pimpl.create_version_message gw t).addr_me.port =
      (channel_pimpl.create_version_message gw2 t2).addr_me.port :=
  ⟨rfl, rfl, rfl, rfl, rfl⟩

/-- The decode failure flag (ret_errc) collected by the branch of the payload
handler's command chain that a recognized command selects: version, addr, inv
and block decode via the dialect; verack has no decoder and keeps the flag
false; the flag is unused for unrecognized commands. -/
def decode_flag (translator : dialect) (header_msg : message.header)
    (pb : List Nat) : Bool :=
  if header_msg.command = "version" then
    translator.version_from_network header_msg pb
  else if header_msg.command = "verack" then false
  else if header_msg.command = "addr" then
    translator.addr_from_network header_msg pb
  else if header_msg.command = "inv" then
    translator.inv_from_network header_msg pb
  else if header_msg.command = "block" then
    translator.block_from_network header_msg pb
  else false

/-- The command chain of the payload handler equals: run transport_payload
with the branch's decode flag when the command is recognized, and fall
through doing nothing when it is not. -/
theorem dispatch_eq (translator : dialect) (network_kernel : kernel)
    (channel_id : Nat) (header_msg : message.header) (pb : List Nat) :
    channel_pimpl.dispatch translator network_kernel channel_id header_msg
      pb =
      (if recognized header_msg.command then
        channel_pimpl.transport_payload network_kernel channel_id
          header_msg.command (decode_flag translator header_msg pb)
      else (true, [])) := by
  by_cases h1 : header_msg.command = "version"
  · simp [channel_pimpl.dispatch, decode_flag, recognized, h1]
  · by_cases h2 : header_msg.command = "verack"
    · simp [channel_pimpl.dispatch, decode_flag, recognized, h1, h2]
    · by_cases h3 : header_msg.command = "addr"
      · simp [channel_pimpl.dispatch, decode_flag, recognized, h1, h2, h3]
      · by_cases h4 : header_msg.command = "inv"
        · simp [channel_pimpl.dispatch, decode_flag, recognized, h1, h2, h3,
            h4]
        · by_cases h5 : header_msg.command = "block"
          · simp [channel_pimpl.dispatch, decode_flag, recognized, h1, h2,
              h3, h4, h5]
          · simp [channel_pimpl.dispatch, decode_flag, recognized, h1, h2,
              h3, h4, h5]

/-- When transport_payload reports early return, its trace holds a teardown
request. -/
theorem transport_payload_false_teardown (network_kernel : kernel)
    (channel_id : Nat) (cmd : String) (e : Bool)
    (h : (channel_pimpl.transport_payload network_kernel channel_id cmd
      e).1 = false) :
    Action.teardownRequested ∈
      (channel_pimpl.transport_payload network_kernel channel_id cmd
        e).2 := by
  unfold channel_pimpl.transport_payload at h ⊢
  split at h
  · split
    · simp
    · simp_all
  · split at h
    · simp at h
    · split
      · simp_all
      · simp

/-- When the command chain does not fall through to the next header read,
its trace holds a teardown request. -/
theorem dispatch_false_teardown (translator : dialect)
    (network_kernel : kernel) (channel_id : Nat)
    (header_msg : message.header) (pb : List Nat)
    (h : (channel_pimpl.dispatch translator network_kernel channel_id
      header_msg pb).1 = false) :
    Action.teardownRequested ∈
      (channel_pimpl.dispatch translator network_kernel channel_id header_msg
        pb).2 := by
  rw [dispatch_eq] at h ⊢
  by_cases hr : recognized header_msg.command
  · rw [if_pos hr] at h ⊢
    exact transport_payload_false_teardown _ _ _ _ h
  · rw [if_neg hr] at h
    simp at h

/-- A trace that ends in a read of the next stage followed by a timer rearm
satisfies the rearm-after-read shape. -/
theorem syncRearmAfterRead_append (xs : List Action) (k : ReadKind) :
    syncRearmAfterRead
      (xs ++ [Action.readIssued k, Action.timerRearmed]) = true := by
  have hsplit : xs ++ [Action.readIssued k, Action.timerRearmed] =
      (xs ++ [Action.readIssued k]) ++ [Action.timerRearmed] := by simp
  have h1 : (xs ++ [Action.readIssued k, Action.timerRearmed]).getLast? =
      some Action.timerRearmed := by
    rw [hsplit]; exact List.getLast?_concat _
  have h2 : (xs ++ [Action.readIssued k, Action.timerRearmed]).dropLast =
      xs ++ [Action.readIssued k] := by
    rw [hsplit]; exact List.dropLast_concat
  simp [syncRearmAfterRead, h1, h2, readCount, List.filter_append, isRead]

/-- C2 counterexample: a successful header-read completion on a concrete
dialect (valid header, no checksum) issues the payload read strictly before
the timer rearm, so the rearm-before-next-read ordering asserted by the
claim is false at this input. -/
theorem timer_rearm_order_counterexample :
    channel_pimpl.handle_read_header exDialect ErrorCode.success [] =
      [Action.logLine, Action.payloadBufferResized 0,
       Action.readIssued (ReadKind.payload 0), Action.timerRearmed] ∧
    rearmBeforeRead
      (channel_pimpl.handle_read_header exDialect ErrorCode.success [])
      = false ∧
    teardownCount
      (channel_pimpl.handle_read_header exDialect ErrorCode.success [])
      = 0 :=
  ⟨rfl, rfl, rfl⟩

/-- C2 (amended): in every successful completion of a read stage (header,
checksum, or payload) that does not tear the channel down, the inactivity
timer is rearmed synchronously within that stage's completion handler as its
final action — but after the next stage's read has been issued, not
before. -/
theorem timer_rearm_synchronous_after_read (translator : dialect)
    (network_kernel : kernel) (channel_id : Nat)
    (header_msg : message.header) (hb cb pb : List Nat) :
    (Action.teardownRequested ∉
        channel_pimpl.handle_read_header translator ErrorCode.success hb →
      syncRearmAfterRead
        (channel_pimpl.handle_read_header translator ErrorCode.success hb)
        = true) ∧
    syncRearmAfterRead
      (channel_pimpl.handle_read_checksum translator header_msg
        ErrorCode.success cb) = true ∧
    (Action.teardownRequested ∉
        channel_pimpl.handle_read_payload translator network_kernel
          channel_id header_msg ErrorCode.success pb →
      syncRearmAfterRead
        (channel_pimpl.handle_read_payload translator network_kernel
          channel_id header_msg ErrorCode.success pb) = true) := by
  refine ⟨?_, rfl, ?_⟩
  · intro hne
    by_cases hv : translator.verify_header
        (translator.header_from_network hb) = false
    · exfalso
      apply hne
      simp [channel_pimpl.handle_read_header, channel_pimpl.problems_check,
        hv]
    · by_cases hc : translator.checksum_used
          (translator.header_from_network hb)
      · have ht : channel_pimpl.handle_read_header translator
            ErrorCode.success hb =
            [Action.logLine, Action.readIssued ReadKind.checksum,
             Action.timerRearmed] := by
          simp [channel_pimpl.handle_read_header,
            channel_pimpl.problems_check, hv, hc, channel_pimpl.read_checksum,
            channel_pimpl.reset_timeout]
        rw [ht]; rfl
      · have ht : channel_pimpl.handle_read_header translator
            ErrorCode.success hb =
            [Action.logLine,
             Action.payloadBufferResized
               (translator.header_from_network hb).payload_length,
             Action.readIssued (ReadKind.payload
               (translator.header_from_network hb).payload_length),
             Action.timerRearmed] := by
          simp [channel_pimpl.handle_read_header,
            channel_pimpl.problems_check, hv, hc, channel_pimpl.read_payload,
            channel_pimpl.reset_timeout]
        rw [ht]; rfl
  · intro hne
    by_cases hcs : translator.verify_checksum header_msg pb = false
    · exfalso
      apply hne
      simp [channel_pimpl.handle_read_payload, channel_pimpl.problems_check,
        hcs]
    · by_cases hd1 : (channel_pimpl.dispatch translator network_kernel
          channel_id header_msg pb).1
      · have ht : channel_pimpl.handle_read_payload translator network_kernel
            channel_id header_msg ErrorCode.success pb =
            (channel_pimpl.dispatch translator network_kernel channel_id
              header_msg pb).2 ++
              [Action.readIssued ReadKind.header, Action.timerRearmed] := by
          simp [channel_pimpl.handle_read_payload,
            channel_pimpl.problems_check, hcs, hd1, channel_pimpl.read_header,
            channel_pimpl.reset_timeout]
        rw [ht]
        exact syncRearmAfterRead_append _ _
      · exfalso
        apply hne
        have ht : channel_pimpl.handle_read_payload translator network_kernel
            channel_id header_msg ErrorCode.success pb =
            (channel_pimpl.dispatch translator network_kernel channel_id
              header_msg pb).2 := by
          simp [channel_pimpl.handle_read_payload,
            channel_pimpl.problems_check, hcs, hd1]
        rw [ht]
        exact dispatch_false_teardown _ _ _ _ _ (by simpa using hd1)

/-- Witness for C2's amended theorem: the header-read handler on the concrete
dialect rearms last, after the payload read was issued. -/
theorem timer_rearm_synchronous_after_read_witness :
    syncRearmAfterRead
      (channel_pimpl.handle_read_header exDialect ErrorCode.success [])
      = true :=
  (timer_rearm_synchronous_after_read exDialect exKernelAccept 0
    exHeaderVersion [] [] []).1 (by decide)

/-- C5: in a dispatched cycle (checksum verified, command recognized), a
decode that reports its failure flag yields exactly one teardown request
with no kernel call and no further read; a successful decode whose delivery
the kernel rejects yields exactly one teardown request and no further read;
in both cases the trace contains no header read, so the loop does not return
to awaiting a header. -/
theorem dispatch_failure_teardown_no_loop (translator : dialect)
    (network_kernel : kernel) (channel_id : Nat)
    (header_msg : message.header) (pb : List Nat)
    (hchk : translator.verify_checksum header_msg pb = true)
    (hrec : recognized header_msg.command = true) :
    (decode_flag translator header_msg pb = true →
      channel_pimpl.handle_read_payload translator network_kernel channel_id
        header_msg ErrorCode.success pb = [Action.teardownRequested] ∧
      teardownCount
        (channel_pimpl.handle_read_payload translator network_kernel
          channel_id header_msg ErrorCode.success pb) = 1 ∧
      deliveredCount
        (channel_pimpl.handle_read_payload translator network_kernel
          channel_id header_msg ErrorCode.success pb) = 0 ∧
      readCount
        (channel_pimpl.handle_read_payload translator network_kernel
          channel_id header_msg ErrorCode.success pb) = 0) ∧
    (decode_flag translator header_msg pb = false →
      network_kernel.recv_message channel_id header_msg.command = false →
      channel_pimpl.handle_read_payload translator network_kernel channel_id
        header_msg ErrorCode.success pb =
        [Action.kernelDelivered header_msg.command,
         Action.teardownRequested] ∧
      teardownCount
        (channel_pimpl.handle_read_payload translator network_kernel
          channel_id header_msg ErrorCode.success pb) = 1 ∧
      readCount
        (channel_pimpl.handle_read_payload translator network_kernel
          channel_id header_msg ErrorCode.success pb) = 0) := by
  have hd := dispatch_eq translator network_kernel channel_id header_msg pb
  rw [hrec] at hd
  simp only [if_true] at hd
  constructor
  · intro hflag
    rw [hflag] at hd
    have ht : channel_pimpl.handle_read_payload translator network_kernel
        channel_id header_msg ErrorCode.success pb =
        [Action.teardownRequested] := by
      simp [channel_pimpl.handle_read_payload, channel_pimpl.problems_check,
        hchk, hd, channel_pimpl.transport_payload]
    refine ⟨ht, ?_, ?_, ?_⟩ <;> rw [ht] <;> rfl
  · intro hflag hrej
    rw [hflag] at hd
    have ht : channel_pimpl.handle_read_payload translator network_kernel
        channel_id header_msg ErrorCode.success pb =
        [Action.kernelDelivered header_msg.command,
         Action.teardownRequested] := by
      simp [channel_pimpl.handle_read_payload, channel_pimpl.problems_check,
        hchk, hd, channel_pimpl.transport_payload, hrej]
    refine ⟨ht, ?_, ?_⟩ <;> rw [ht] <;> rfl

/-- Witness for C5: a failing version decoder tears down without a kernel
call; an accepting decoder with a rejecting kernel delivers once and tears
down. -/
theorem dispatch_failure_teardown_no_loop_witness :
    channel_pimpl.handle_read_payload exDialectDecodeFail exKernelAccept 0
      exHeaderVersion ErrorCode.success [] = [Action.teardownRequested] ∧
    channel_pimpl.handle_read_payload exDialect exKernelReject 0
      exHeaderVersion ErrorCode.success [] =
      [Action.kernelDelivered "version", Action.teardownRequested] :=
  ⟨((dispatch_failure_teardown_no_loop exDialectDecodeFail exKernelAccept 0
      exHeaderVersion [] rfl rfl).1 rfl).1,
   ((dispatch_failure_teardown_no_loop exDialect exKernelReject 0
      exHeaderVersion [] rfl rfl).2 rfl rfl).1⟩

/-- C6: a checksum-verified header whose command is outside the recognized
chain has its declared number of payload bytes read (buffer resized first),
is never delivered to the kernel, triggers no teardown, and the handler
loops back by issuing the next header read. -/
theorem unknown_command_drained (translator : dialect)
    (network_kernel : kernel) (channel_id : Nat)
    (header_msg : message.header) (pb : List Nat)
    (hchk : translator.verify_checksum header_msg pb = true)
    (hunrec : recognized header_msg.command = false) :
    channel_pimpl.read_payload header_msg =
      [Action.payloadBufferResized header_msg.payload_length,
       Action.readIssued (ReadKind.payload header_msg.payload_length)] ∧
    channel_pimpl.handle_read_payload translator network_kernel channel_id
      header_msg ErrorCode.success pb =
      [Action.readIssued ReadKind.header, Action.timerRearmed] ∧
    deliveredCount
      (channel_pimpl.handle_read_payload translator network_kernel channel_id
        header_msg ErrorCode.success pb) = 0 ∧
    teardownCount
      (channel_pimpl.handle_read_payload translator network_kernel channel_id
        header_msg ErrorCode.success pb) = 0 := by
  have hd := dispatch_eq translator network_kernel channel_id header_msg pb
  rw [hunrec] at hd
  simp only [Bool.false_eq_true, if_false] at hd
  have ht : channel_pimpl.handle_read_payload translator network_kernel
      channel_id header_msg ErrorCode.success pb =
      [Action.readIssued ReadKind.header, Action.timerRearmed] := by
    simp [channel_pimpl.handle_read_payload, channel_pimpl.problems_check,
      hchk, hd, channel_pimpl.read_header, channel_pimpl.reset_timeout]
  refine ⟨rfl, ht, ?_, ?_⟩ <;> rw [ht] <;> rfl

/-- Witness for C6: a 50-byte unrecognized ping command is drained and
dropped, and the handler loops back to the header read. -/
theorem unknown_command_drained_witness :
    channel_pimpl.read_payload exHeaderUnknown =
      [Action.payloadBufferResized 50,
       Action.readIssued (ReadKind.payload 50)] ∧
    channel_pimpl.handle_read_payload exDialect exKernelAccept 0
      exHeaderUnknown ErrorCode.success [] =
      [Action.readIssued ReadKind.header, Action.timerRearmed] ∧
    deliveredCount
      (channel_pimpl.handle_read_payload exDialect exKernelAccept 0
        exHeaderUnknown ErrorCode.success []) = 0 ∧
    teardownCount
      (channel_pimpl.handle_read_payload exDialect exKernelAccept 0
        exHeaderUnknown ErrorCode.success []) = 0 :=
  unknown_command_drained exDialect exKernelAccept 0 exHeaderUnknown []
    rfl rfl

/-- The shared counter after n constructions equals n. -/
theorem counter_after_eq (n : Nat) : channel_pimpl.counter_after n = n := by
  induction n with
  | zero => rfl
  | succ k ih =>
      simp [channel_pimpl.counter_after, channel_pimpl.construct, ih]

/-- The n-th constructed channel is assigned identity n. -/
theorem channel_id_of_eq (n : Nat) : channel_pimpl.channel_id_of n = n := by
  unfold channel_pimpl.channel_id_of
  rw [counter_after_eq]
  rfl

/-- C8: distinct constructions receive distinct identities (never reused in
the process lifetime), and in every construction the identity assignment is
the very first action — before the header read, timer arm, and handshake
send — and happens exactly once. -/
theorem channel_identity_unique_once_before_io (m n c : Nat) (hmn : m ≠ n) :
    channel_pimpl.channel_id_of m ≠ channel_pimpl.channel_id_of n ∧
    ((channel_pimpl.construct c).2.2).head? =
      some (Action.idAssigned (channel_pimpl.construct c).1) ∧
    (((channel_pimpl.construct c).2.2).filter isIdAssigned).length = 1 ∧
    (channel_pimpl.construct c).2.2 =
      [Action.idAssigned c, Action.readIssued ReadKind.header,
       Action.timerRearmed, Action.versionSent] := by
  refine ⟨?_, rfl, rfl, rfl⟩
  rw [channel_id_of_eq, channel_id_of_eq]
  exact hmn

/-- Witness for C8: channels 0 and 1 receive different identities and the
constructor trace at counter value 7 starts with the assignment. -/
theorem channel_identity_unique_once_before_io_witness :
    channel_pimpl.channel_id_of 0 ≠ channel_pimpl.channel_id_of 1 ∧
    ((channel_pimpl.construct 7).2.2).head? =
      some (Action.idAssigned (channel_pimpl.construct 7).1) ∧
    (((channel_pimpl.construct 7).2.2).filter isIdAssigned).length = 1 ∧
    (channel_pimpl.construct 7).2.2 =
      [Action.idAssigned 7, Action.readIssued ReadKind.header,
       Action.timerRearmed, Action.versionSent] :=
  channel_identity_unique_once_before_io 0 1 7 (by decide)

/-- C10: a checksum-verified header carrying getaddr, getdata, or getblocks
matches no branch of the command chain: its payload was consumed, nothing is
delivered to the kernel, no teardown occurs, and the handler loops back to
the header read — and in general a delivery only ever happens for one of the
five recognized commands. -/
theorem get_commands_never_delivered (translator : dialect)
    (network_kernel : kernel) (channel_id : Nat)
    (header_msg : message.header) (pb : List Nat)
    (hcmd : header_msg.command = "getaddr" ∨ header_msg.command = "getdata" ∨
      header_msg.command = "getblocks")
    (hchk : translator.verify_checksum header_msg pb = true) :
    channel_pimpl.handle_read_payload translator network_kernel channel_id
      header_msg ErrorCode.success pb =
      [Action.readIssued ReadKind.header, Action.timerRearmed] ∧
    deliveredCount
      (channel_pimpl.handle_read_payload translator network_kernel channel_id
        header_msg ErrorCode.success pb) = 0 ∧
    teardownCount
      (channel_pimpl.handle_read_payload translator network_kernel channel_id
        header_msg ErrorCode.success pb) = 0 ∧
    (∀ h2 : message.header, ∀ pb2 : List Nat,
      recognized h2.command = false →
      deliveredCount
        (channel_pimpl.handle_read_payload translator network_kernel
          channel_id h2 ErrorCode.success pb2) = 0) := by
  have hunrec : recognized header_msg.command = false := by
    rcases hcmd with h | h | h <;> rw [h] <;> rfl
  have hd := dispatch_eq translator network_kernel channel_id header_msg pb
  rw [hunrec] at hd
  simp only [Bool.false_eq_true, if_false] at hd
  have ht : channel_pimpl.handle_read_payload translator network_kernel
      channel_id header_msg ErrorCode.success pb =
      [Action.readIssued ReadKind.header, Action.timerRearmed] := by
    simp [channel_pimpl.handle_read_payload, channel_pimpl.problems_check,
      hchk, hd, channel_pimpl.read_header, channel_pimpl.reset_timeout]
  refine ⟨ht, by rw [ht]; rfl, by rw [ht]; rfl, ?_⟩
  intro h2 pb2 hr
  have hd2 := dispatch_eq translator network_kernel channel_id h2 pb2
  rw [hr] at hd2
  simp only [Bool.false_eq_true, if_false] at hd2
  by_cases hc2 : translator.verify_checksum h2 pb2 = false
  · have ht2 : channel_pimpl.handle_read_payload translator network_kernel
        channel_id h2 ErrorCode.success pb2 =
        [Action.logLine, Action.teardownRequested] := by
      simp [channel_pimpl.handle_read_payload, channel_pimpl.problems_check,
        hc2]
    rw [ht2]; rfl
  · have hc2t : translator.verify_checksum h2 pb2 = true := by
      cases hx : translator.verify_checksum h2 pb2
      · exact absurd hx hc2
      · rfl
    have ht2 : channel_pimpl.handle_read_payload translator network_kernel
        channel_id h2 ErrorCode.success pb2 =
        [Action.readIssued ReadKind.header, Action.timerRearmed] := by
      simp [channel_pimpl.handle_read_payload, channel_pimpl.problems_check,
        hc2t, hd2, channel_pimpl.read_header, channel_pimpl.reset_timeout]
    rw [ht2]; rfl

/-- Witness for C10: a getaddr cycle on the concrete dialect consumes its
payload, delivers nothing, and loops back to the header read. -/
theorem get_commands_never_delivered_witness :
    channel_pimpl.handle_read_payload exDialect exKernelAccept 0
      exHeaderGetaddr ErrorCode.success [] =
      [Action.readIssued ReadKind.header, Action.timerRearmed] ∧
    deliveredCount
      (channel_pimpl.handle_read_payload exDialect exKernelAccept 0
        exHeaderGetaddr ErrorCode.success []) = 0 :=
  ⟨(get_commands_never_delivered exDialect exKernelAccept 0 exHeaderGetaddr
      [] (Or.inl rfl) rfl).1,
   (get_commands_never_delivered exDialect exKernelAccept 0 exHeaderGetaddr
      [] (Or.inl rfl) rfl).2.1⟩

end Libbitcoin
